import Mathlib

/-!
Verification of the dispatcher, worker protocol and lifecycle machinery of
the react-web-worker repository (src/hooks/useWebWorker.ts and its callers),
as a shallow embedding: JavaScript values become an inductive type, the
worker onmessage handlers become pure functions from invocation envelopes to
reply envelopes, and the stateful dispatcher (runWorker / worker.onmessage /
worker.onerror / kill) becomes an explicit step function on a dispatcher
state record.  Thrown errors and rejected promises inside the worker are
modelled with Except, promise settlement is modelled as an append-once log
keyed by a dispatch identifier.
-/

namespace ReactWebWorker

/-- JavaScript values as far as the examples and claims need them: numbers
(the examples only use non-negative integers), strings and booleans.  The
value undefined is modelled as the value none of an Option where it can
occur. -/
inductive Val where
  | num (n : Nat)
  | str (s : String)
  | bool (b : Bool)
deriving DecidableEq, Repr

/-- A callable as crossed through the worker boundary: a pure function from
its explicit argument list to either a returned value (Except.ok) or a
thrown error carrying only its message text (Except.error).  Purity and
argument-only inputs are exactly the contract the spec imposes on callables
sent to the worker, so the embedding bakes them into the type. -/
structure Callable where
  fn : List Val → Except String Val

/-- Source text of a callable as produced by Function.prototype.toString.
For a pure, argument-only callable, evaluating the text back with
new Function reconstructs a function with the same behaviour, so the
embedding represents the text by the behaviour it reconstructs to. -/
structure FuncSource where
  behavior : Callable

/-- Models workerFunction.toString() for a capture-free callable. -/
def Callable.toString (c : Callable) : FuncSource := ⟨c⟩

/-- Models new Function("return " + functionString)() in the worker:
reconstruction of the callable from its shipped source text
(src/hooks/useWebWorker.ts line 18). -/
def newFunction (fs : FuncSource) : Callable := fs.behavior

/-- The envelope runWorker posts to the worker
(src/hooks/useWebWorker.ts lines 63-66):
input holds the spread argument list, functionString the callable source. -/
structure InvocationMsg where
  input : List Val
  functionString : FuncSource

/-- The envelope workerFunc posts back (lines 21 and 24): an object that has
a result field, or an error field; a field that is absent reads as
undefined (none) when destructured by the reply handler. -/
structure ReplyMsg where
  result : Option Val
  error : Option String
deriving DecidableEq, Repr

/-- The onmessage handler installed by workerFunc inside the worker
(src/hooks/useWebWorker.ts lines 16-26): reconstruct the callable from
functionString, call it on the spread input, post a result envelope on
normal return and an error envelope carrying the message text on a throw. -/
def workerFuncOnMessage (msg : InvocationMsg) : ReplyMsg :=
  let func := newFunction msg.functionString
  match func.fn msg.input with
  | Except.ok result => { result := some result, error := none }
  | Except.error e => { result := none, error := some e }

/-- The list of envelopes the workerFunc context posts while handling one
invocation: each branch of the try/catch executes exactly one postMessage,
so the list is the singleton reply. -/
def workerFuncReplies (msg : InvocationMsg) : List ReplyMsg :=
  [workerFuncOnMessage msg]

/-- The envelopes posted over a whole inbound message sequence: replies are
produced only by the onmessage handler, one run per inbound invocation. -/
def workerFuncRun (msgs : List InvocationMsg) : List ReplyMsg :=
  msgs.map workerFuncOnMessage

/-- The envelope posted to the worker created by webWorkerFunctionCreator
(src/hooks/useWebWorker.ts lines 108-110): field names differ from the
hook variant. -/
structure CreatorInvocationMsg where
  funcString : FuncSource
  args : List Val

/-- The onmessage handler of the webWorkerFunctionCreator worker
(src/hooks/useWebWorker.ts lines 93-98): it reconstructs and calls the
function and posts the raw result with no try/catch, so on a normal return
exactly the untagged result value is posted, and on a throw the exception
escapes the handler and nothing is posted at all. -/
def creatorWorkerOnMessage (msg : CreatorInvocationMsg) : List Val :=
  match (newFunction msg.funcString).fn msg.args with
  | Except.ok result => [result]
  | Except.error _ => []

/-- Worker status as displayed by the hook (line 3 of the source). -/
inductive WorkerStatus where
  | idle
  | running
  | error
deriving DecidableEq, Repr

/-- What a pending promise is rejected with: a constructed Error carrying a
message (new Error(...) at lines 43 and 51), or the ErrorEvent object passed
through as-is by the onerror handler (line 60). -/
inductive JsError where
  | jsError (msg : String)
  | channelEvent
deriving DecidableEq, Repr

/-- A settlement of a pending promise: resolve(result) where result may be
undefined, or reject with an error. -/
inductive Settlement where
  | resolved (v : Option Val)
  | rejected (e : JsError)
deriving DecidableEq, Repr

/-- Dispatcher state: the status cell, whether a live Worker handle exists
(worker is non-null), which dispatch call currently owns the single
worker.onmessage / worker.onerror handler slot (by its promise id), the log
of promise settlements so far, and the invocations posted to the worker. -/
structure DispState where
  status : WorkerStatus
  workerAlive : Bool
  handlerSlot : Option Nat
  settlements : List (Nat × Settlement)
  outbox : List InvocationMsg

/-- State of the hook right after the mount effect created the worker
(lines 28-32): status idle, live worker, no handler installed yet, nothing
settled, nothing posted. -/
def initState : DispState :=
  { status := WorkerStatus.idle
    workerAlive := true
    handlerSlot := none
    settlements := []
    outbox := [] }

/-- Record a settlement for promise id: a JavaScript promise settles at most
once, so resolve or reject on an already settled promise is a no-op. -/
def settle (s : DispState) (id : Nat) (st : Settlement) : List (Nat × Settlement) :=
  if s.settlements.any (fun p => p.1 == id) then s.settlements
  else s.settlements ++ [(id, st)]

/-- The invocation envelope runWorker builds at lines 63-66. -/
def mkInvocation (f : Callable) (args : List Val) : InvocationMsg :=
  { input := args, functionString := f.toString }

/-- Transcription of runWorker in useWebWorker
(src/hooks/useWebWorker.ts lines 41-67), called with a fresh promise id.
If no worker handle exists it returns Promise.reject(new Error("Worker not
initialized")) without touching status; otherwise it sets status to running,
installs the one reply handler slot for this call (overwriting any previous
one) and posts the invocation. -/
def runWorker (s : DispState) (id : Nat) (f : Callable) (args : List Val) : DispState :=
  if !s.workerAlive then
    { s with settlements := settle s id (Settlement.rejected (JsError.jsError "Worker not initialized")) }
  else
    { s with
        status := WorkerStatus.running
        handlerSlot := some id
        outbox := s.outbox ++ [mkInvocation f args] }

/-- JavaScript truthiness of the destructured error field at line 49:
undefined and the empty string are falsy, every other string is truthy. -/
def truthyError : Option String → Bool
  | none => false
  | some s => !s.isEmpty

/-- Transcription of the worker.onmessage handler installed by runWorker
(lines 47-56), run when the worker posts a reply envelope.  The outer guards
model delivery: a terminated or absent worker fires no events, and the
handler only exists once some dispatch installed it.  The body destructures
result and error, and on a truthy error sets status to error and rejects
with new Error(error), otherwise sets status to idle and resolves with
result. -/
def hookOnMessage (s : DispState) (r : ReplyMsg) : DispState :=
  if s.workerAlive then
    match s.handlerSlot with
    | some id =>
        if truthyError r.error then
          { s with
              status := WorkerStatus.error
              settlements := settle s id (Settlement.rejected (JsError.jsError (r.error.getD ""))) }
        else
          { s with
              status := WorkerStatus.idle
              settlements := settle s id (Settlement.resolved r.result) }
    | none => s
  else s

/-- Transcription of the worker.onerror handler installed by runWorker
(lines 58-61): a channel-level fault sets status to error and rejects the
pending promise with the event itself. -/
def hookOnError (s : DispState) : DispState :=
  if s.workerAlive then
    match s.handlerSlot with
    | some id =>
        { s with
            status := WorkerStatus.error
            settlements := settle s id (Settlement.rejected JsError.channelEvent) }
    | none => s
  else s

/-- Transcription of kill (src/hooks/useWebWorker.ts lines 72-78): if a
worker handle exists, terminate it (discarding its handler slot), null the
handle and set status idle; otherwise do nothing. -/
def kill (s : DispState) : DispState :=
  if s.workerAlive then
    { s with
        workerAlive := false
        handlerSlot := none
        status := WorkerStatus.idle }
  else s

/-- The events the dispatcher reacts to: a runWorker call with a fresh
promise id, a message from the worker, an onerror fault, a kill call. -/
inductive Event where
  | dispatch (id : Nat) (f : Callable) (args : List Val)
  | message (r : ReplyMsg)
  | channelError
  | killCall

/-- One step of the useWebWorker dispatcher. -/
def useWebWorkerStep (s : DispState) : Event → DispState
  | Event.dispatch id f args => runWorker s id f args
  | Event.message r => hookOnMessage s r
  | Event.channelError => hookOnError s
  | Event.killCall => kill s

/-- A full round trip through the hook dispatcher: runWorker posts the
invocation built from f and args, the worker handles it with
workerFuncOnMessage, and the reply is delivered back to the installed
handler. -/
def roundTrip (f : Callable) (args : List Val) (id : Nat) (s : DispState) : DispState :=
  useWebWorkerStep
    (useWebWorkerStep s (Event.dispatch id f args))
    (Event.message (workerFuncOnMessage (mkInvocation f args)))

/-- The sumRange callable of the concrete spec scenario:
sumRange(n) returns 0 + 1 + ... + (n-1). -/
def sumRange : Callable :=
  ⟨fun args =>
    match args with
    | [Val.num n] => Except.ok (Val.num ((List.range n).foldl (· + ·) 0))
    | _ => Except.error "invalid arguments"⟩

/-- A callable that always throws new Error("boom"). -/
def throwBoom : Callable := ⟨fun _ => Except.error "boom"⟩

/-- A callable that always throws an error whose message is empty. -/
def throwEmpty : Callable := ⟨fun _ => Except.error ""⟩

/-- Transcription of runWorker inside generateWebWorker
(src/hooks/useWebWorker.ts lines 151-179): textually the same dispatch logic
as the hook variant, with plain variable assignment in place of setState. -/
def genRunWorker (s : DispState) (id : Nat) (f : Callable) (args : List Val) : DispState :=
  if !s.workerAlive then
    { s with settlements := settle s id (Settlement.rejected (JsError.jsError "Worker not initialized")) }
  else
    { s with
        status := WorkerStatus.running
        handlerSlot := some id
        outbox := s.outbox ++ [mkInvocation f args] }

/-- Transcription of the worker.onmessage handler installed by
generateWebWorker (lines 158-167). -/
def genOnMessage (s : DispState) (r : ReplyMsg) : DispState :=
  if s.workerAlive then
    match s.handlerSlot with
    | some id =>
        if truthyError r.error then
          { s with
              status := WorkerStatus.error
              settlements := settle s id (Settlement.rejected (JsError.jsError (r.error.getD ""))) }
        else
          { s with
              status := WorkerStatus.idle
              settlements := settle s id (Settlement.resolved r.result) }
    | none => s
  else s

/-- Transcription of the worker.onerror handler installed by
generateWebWorker (lines 169-172). -/
def genOnError (s : DispState) : DispState :=
  if s.workerAlive then
    match s.handlerSlot with
    | some id =>
        { s with
            status := WorkerStatus.error
            settlements := settle s id (Settlement.rejected JsError.channelEvent) }
    | none => s
  else s

/-- Transcription of kill inside generateWebWorker (lines 181-187). -/
def genKill (s : DispState) : DispState :=
  if s.workerAlive then
    { s with
        workerAlive := false
        handlerSlot := none
        status := WorkerStatus.idle }
  else s

/-- One step of the generateWebWorker singleton dispatcher. -/
def generateWebWorkerStep (s : DispState) : Event → DispState
  | Event.dispatch id f args => genRunWorker s id f args
  | Event.message r => genOnMessage s r
  | Event.channelError => genOnError s
  | Event.killCall => genKill s

/-- True when the event is a runWorker call owning the given promise id. -/
def dispatches (id : Nat) : Event → Bool
  | Event.dispatch i _ _ => i == id
  | _ => false

/-- The three status readings of a round trip through the hook dispatcher,
starting from the freshly mounted state: before dispatch, after the
runWorker call, after the reply is delivered. -/
def statusTrace (f : Callable) (args : List Val) (id : Nat) : List WorkerStatus :=
  [initState.status,
   (useWebWorkerStep initState (Event.dispatch id f args)).status,
   (roundTrip f args id initState).status]

/-- The state after two back-to-back runWorker calls from the freshly
mounted state, the second issued before any reply to the first arrives. -/
def twoDispatches (id1 id2 : Nat) (f1 f2 : Callable) (a1 a2 : List Val) : DispState :=
  runWorker (runWorker initState id1 f1 a1) id2 f2 a2

/-- Modelled from the spec: the gated, value-driven useWebWorker hook called
by ExampleWithHook as useWebWorker(url, workerFunction, shouldExecute) is
not present under src/ (src/hooks/useWebWorker.ts exports a one-argument
hook with a different surface; only the caller exists).  Following the spec,
the gated state holds the status, whether an Execution Context is currently
live, how many contexts were ever created, and the replies produced by the
currently live context. -/
structure GatedState where
  status : WorkerStatus
  contextLive : Bool
  contextsCreated : Nat
  replies : List ReplyMsg
deriving DecidableEq, Repr

/-- Modelled from the spec: initial gated-hook state before any trigger. -/
def gatedInit : GatedState :=
  { status := WorkerStatus.idle
    contextLive := false
    contextsCreated := 0
    replies := [] }

/-- Modelled from the spec: events of the gated hook: the external trigger
value changes, or the live context posts a reply. -/
inductive GatedEvent where
  | setTrigger (t : Nat)
  | contextReply (r : ReplyMsg)

/-- Modelled from the spec: one step of the gated, value-driven policy.  A
trigger change tears the current context down; a truthy trigger then creates
a fresh context, re-sends the fixed input and reads as running until the
context replies, while a falsy (zero) trigger rests at idle with no context
created and no invocation sent.  A reply from the live context sets status
to idle and is recorded; with no live context no reply can occur. -/
def gatedStep (s : GatedState) : GatedEvent → GatedState
  | GatedEvent.setTrigger t =>
      if t != 0 then
        { status := WorkerStatus.running
          contextLive := true
          contextsCreated := s.contextsCreated + 1
          replies := [] }
      else
        { status := WorkerStatus.idle
          contextLive := false
          contextsCreated := s.contextsCreated
          replies := [] }
  | GatedEvent.contextReply r =>
      if s.contextLive then
        { s with status := WorkerStatus.idle, replies := s.replies ++ [r] }
      else s

/-! Helper lemmas shared by the claim theorems. -/

theorem settle_fresh (s : DispState) (id : Nat) (st : Settlement)
    (h : s.settlements.all (fun p => p.1 != id) = true) :
    settle s id st = s.settlements ++ [(id, st)] := by
  unfold settle
  have hany : s.settlements.any (fun p => p.1 == id) = false := by
    rw [List.any_eq_false]
    intro p hp
    have := List.all_eq_true.mp h p hp
    simpa using this
  simp [hany]

theorem settle_all (P : Nat × Settlement → Bool) (s : DispState) (id : Nat) (st : Settlement)
    (h1 : s.settlements.all P = true) (h2 : P (id, st) = true) :
    (settle s id st).all P = true := by
  unfold settle
  split
  · exact h1
  · simp only [List.all_append, List.all_cons, List.all_nil, h1, h2]
    rfl

theorem step_dead (s : DispState) (e : Event) (h : s.workerAlive = false) :
    (useWebWorkerStep s e).workerAlive = false := by
  cases e <;> simp [useWebWorkerStep, runWorker, hookOnMessage, hookOnError, kill, h]

theorem foldl_dead (evts : List Event) :
    ∀ s : DispState, s.workerAlive = false →
      (evts.foldl useWebWorkerStep s).workerAlive = false := by
  induction evts with
  | nil => intro s h; simpa using h
  | cons e evts ih =>
      intro s h
      rw [List.foldl_cons]
      exact ih _ (step_dead s e h)

theorem step_preserves_no_id (id1 : Nat) (s : DispState) (e : Event)
    (hslot : s.handlerSlot ≠ some id1)
    (hset : s.settlements.all (fun p => p.1 != id1) = true)
    (he : dispatches id1 e = false) :
    (useWebWorkerStep s e).handlerSlot ≠ some id1 ∧
      (useWebWorkerStep s e).settlements.all (fun p => p.1 != id1) = true := by
  cases e with
  | dispatch id f args =>
      have hid : (id == id1) = false := by simpa [dispatches] using he
      have hidne : id ≠ id1 := by simpa using hid
      have hid2 : (id != id1) = true := by simp [bne, hid]
      cases hw : s.workerAlive with
      | false =>
          refine ⟨?_, ?_⟩
          · simpa [useWebWorkerStep, runWorker, hw] using hslot
          · have := settle_all (fun p => p.1 != id1) s id
              (Settlement.rejected (JsError.jsError "Worker not initialized")) hset hid2
            simpa [useWebWorkerStep, runWorker, hw] using this
      | true =>
          refine ⟨?_, ?_⟩
          · simp [useWebWorkerStep, runWorker, hw]
            exact hidne
          · simpa [useWebWorkerStep, runWorker, hw] using hset
  | message r =>
      cases hw : s.workerAlive with
      | false =>
          refine ⟨?_, ?_⟩
          · simpa [useWebWorkerStep, hookOnMessage, hw] using hslot
          · simpa [useWebWorkerStep, hookOnMessage, hw] using hset
      | true =>
          cases hsl : s.handlerSlot with
          | none =>
              simpa [useWebWorkerStep, hookOnMessage, hw, hsl] using hset
          | some j =>
              have hj : j ≠ id1 := fun hh => hslot (by rw [hsl, hh])
              have hj2 : (j != id1) = true := by simpa [bne] using hj
              cases ht : truthyError r.error with
              | true =>
                  refine ⟨?_, ?_⟩
                  · simp [useWebWorkerStep, hookOnMessage, hw, hsl, ht]
                    exact hj
                  · have := settle_all (fun p => p.1 != id1) s j
                      (Settlement.rejected (JsError.jsError (r.error.getD ""))) hset hj2
                    simpa [useWebWorkerStep, hookOnMessage, hw, hsl, ht] using this
              | false =>
                  refine ⟨?_, ?_⟩
                  · simp [useWebWorkerStep, hookOnMessage, hw, hsl, ht]
                    exact hj
                  · have := settle_all (fun p => p.1 != id1) s j
                      (Settlement.resolved r.result) hset hj2
                    simpa [useWebWorkerStep, hookOnMessage, hw, hsl, ht] using this
  | channelError =>
      cases hw : s.workerAlive with
      | false =>
          refine ⟨?_, ?_⟩
          · simpa [useWebWorkerStep, hookOnError, hw] using hslot
          · simpa [useWebWorkerStep, hookOnError, hw] using hset
      | true =>
          cases hsl : s.handlerSlot with
          | none =>
              simpa [useWebWorkerStep, hookOnError, hw, hsl] using hset
          | some j =>
              have hj : j ≠ id1 := fun hh => hslot (by rw [hsl, hh])
              have hj2 : (j != id1) = true := by simpa [bne] using hj
              refine ⟨?_, ?_⟩
              · simp [useWebWorkerStep, hookOnError, hw, hsl]
                exact hj
              · have := settle_all (fun p => p.1 != id1) s j
                  (Settlement.rejected JsError.channelEvent) hset hj2
                simpa [useWebWorkerStep, hookOnError, hw, hsl] using this
  | killCall =>
      cases hw : s.workerAlive with
      | false =>
          refine ⟨?_, ?_⟩
          · simpa [useWebWorkerStep, kill, hw] using hslot
          · simpa [useWebWorkerStep, kill, hw] using hset
      | true =>
          refine ⟨?_, ?_⟩
          · simp [useWebWorkerStep, kill, hw]
          · simpa [useWebWorkerStep, kill, hw] using hset

theorem foldl_no_settle (id1 : Nat) (evts : List Event) :
    ∀ s : DispState,
      s.handlerSlot ≠ some id1 →
      s.settlements.all (fun p => p.1 != id1) = true →
      evts.all (fun e => !(dispatches id1 e)) = true →
      (evts.foldl useWebWorkerStep s).settlements.all (fun p => p.1 != id1) = true := by
  induction evts with
  | nil => intro s _ hset _; simpa using hset
  | cons e evts ih =>
      intro s hslot hset hall
      rw [List.all_cons, Bool.and_eq_true] at hall
      have he : dispatches id1 e = false := by
        have := hall.1
        simpa using this
      have hstep := step_preserves_no_id id1 s e hslot hset he
      rw [List.foldl_cons]
      exact ih _ hstep.1 hstep.2 hall.2

theorem runWorker_dead (s : DispState) (id : Nat) (f : Callable) (args : List Val)
    (h : s.workerAlive = false) :
    runWorker s id f args
      = { s with settlements := settle s id (Settlement.rejected (JsError.jsError "Worker not initialized")) } := by
  simp [runWorker, h]

theorem kill_dead (s : DispState) (h : s.workerAlive = false) : kill s = s := by
  simp [kill, h]

theorem gatedReplies_fix (rs : List ReplyMsg) :
    ∀ s : GatedState, s.contextLive = false →
      (rs.map GatedEvent.contextReply).foldl gatedStep s = s := by
  induction rs with
  | nil => intro s _; rfl
  | cons r rs ih =>
      intro s h
      rw [List.map_cons, List.foldl_cons]
      have hfix : gatedStep s (GatedEvent.contextReply r) = s := by
        simp [gatedStep, h]
      rw [hfix]
      exact ih s h

/-! Claim theorems. -/

/-- C1: for every pure callable whose only inputs are its explicit
arguments, and every argument tuple, the promise returned by runWorker
resolves to the same value as calling the function directly in-process;
in particular dispatch(sumRange, [5]) resolves to 10 (see the witness). -/
theorem dispatchResolvesDirect (f : Callable) (args : List Val) (v : Val) (id : Nat)
    (h : f.fn args = Except.ok v) :
    (roundTrip f args id initState).settlements = [(id, Settlement.resolved (some v))] ∧
      (roundTrip f args id initState).status = WorkerStatus.idle := by
  refine ⟨?_, ?_⟩ <;>
    simp [roundTrip, useWebWorkerStep, runWorker, initState, hookOnMessage,
      workerFuncOnMessage, mkInvocation, newFunction, Callable.toString, h,
      truthyError, settle]

/-- Witness for C1 at the concrete spec scenario: sumRange(5) returns 10
directly, and the dispatched round trip settles by resolving with 10. -/
theorem dispatchResolvesDirect_witness :
    sumRange.fn [Val.num 5] = Except.ok (Val.num 10) ∧
      ((roundTrip sumRange [Val.num 5] 0 initState).settlements
          = [(0, Settlement.resolved (some (Val.num 10)))] ∧
        (roundTrip sumRange [Val.num 5] 0 initState).status = WorkerStatus.idle) :=
  ⟨rfl, dispatchResolvesDirect sumRange [Val.num 5] (Val.num 10) 0 rfl⟩

/-- C2 counterexample: a callable that throws an error whose message is the
empty string does not reject and does not leave status error; the reply
handler classifies the reply by truthiness of its error field, resolves the
promise with undefined and sets status idle. -/
theorem errorPropagation_cex :
    throwEmpty.fn [] = Except.error "" ∧
      (roundTrip throwEmpty [] 0 initState).status = WorkerStatus.idle ∧
      (roundTrip throwEmpty [] 0 initState).status ≠ WorkerStatus.error ∧
      (roundTrip throwEmpty [] 0 initState).settlements = [(0, Settlement.resolved none)] :=
  ⟨rfl, rfl, by decide, rfl⟩

/-- C2 (amended): every callable that throws an error with a truthy
(non-empty) message m makes the round trip reject with an error whose
message equals m and leaves status error. -/
theorem errorPropagation (f : Callable) (args : List Val) (m : String) (id : Nat)
    (h : f.fn args = Except.error m) (hm : m ≠ "") :
    (roundTrip f args id initState).status = WorkerStatus.error ∧
      (roundTrip f args id initState).settlements
        = [(id, Settlement.rejected (JsError.jsError m))] := by
  have hne : m.isEmpty = false := by
    cases he : m.isEmpty with
    | false => rfl
    | true => exact absurd ((String.isEmpty_iff m).mp he) hm
  refine ⟨?_, ?_⟩ <;>
    simp [roundTrip, useWebWorkerStep, runWorker, initState, hookOnMessage,
      workerFuncOnMessage, mkInvocation, newFunction, Callable.toString, h,
      truthyError, hne, settle]

/-- Witness for C2 (amended) at the concrete spec scenario: a callable
throwing new Error("boom") makes the round trip reject with message boom
and leaves status error. -/
theorem errorPropagation_witness :
    throwBoom.fn [] = Except.error "boom" ∧ ("boom" : String) ≠ "" ∧
      ((roundTrip throwBoom [] 0 initState).status = WorkerStatus.error ∧
        (roundTrip throwBoom [] 0 initState).settlements
          = [(0, Settlement.rejected (JsError.jsError "boom"))]) :=
  ⟨rfl, by decide, errorPropagation throwBoom [] "boom" 0 rfl (by decide)⟩

/-- C3: a runWorker call while no worker handle exists fails immediately
with the Worker not initialized rejection, and leaves the status (and the
handler slot) exactly as they were. -/
theorem dispatchNotInitialized (s : DispState) (id : Nat) (f : Callable) (args : List Val)
    (h : s.workerAlive = false)
    (hfresh : s.settlements.all (fun p => p.1 != id) = true) :
    (runWorker s id f args).status = s.status ∧
      (runWorker s id f args).handlerSlot = s.handlerSlot ∧
      (runWorker s id f args).settlements
        = s.settlements
            ++ [(id, Settlement.rejected (JsError.jsError "Worker not initialized"))] := by
  refine ⟨?_, ?_, ?_⟩ <;>
    simp [runWorker, h, settle_fresh s id _ hfresh]

/-- Witness for C3: dispatching right after kill from the freshly mounted
state is rejected with Worker not initialized, status untouched. -/
theorem dispatchNotInitialized_witness :
    (kill initState).workerAlive = false ∧
      ((runWorker (kill initState) 0 sumRange [Val.num 5]).status = (kill initState).status ∧
        (runWorker (kill initState) 0 sumRange [Val.num 5]).handlerSlot
          = (kill initState).handlerSlot ∧
        (runWorker (kill initState) 0 sumRange [Val.num 5]).settlements
          = (kill initState).settlements
              ++ [(0, Settlement.rejected (JsError.jsError "Worker not initialized"))]) :=
  ⟨rfl, dispatchNotInitialized (kill initState) 0 sumRange [Val.num 5] rfl rfl⟩

/-- C4 counterexample: a failing round trip does not always observe
idle, running, error: a callable that throws an error with empty message
produces the failure Reply with error field present but empty, which the
handler classifies as success, so the observed trace is idle, running,
idle. -/
theorem statusTransitions_cex :
    throwEmpty.fn [] = Except.error "" ∧
      workerFuncOnMessage (mkInvocation throwEmpty [])
        = { result := none, error := some "" } ∧
      statusTrace throwEmpty [] 2
        = [WorkerStatus.idle, WorkerStatus.running, WorkerStatus.idle] ∧
      statusTrace throwEmpty [] 2
        ≠ [WorkerStatus.idle, WorkerStatus.running, WorkerStatus.error] :=
  ⟨rfl, rfl, rfl, by decide⟩

/-- C4 (amended): the status machine moves idle to running on a dispatch
with a live worker; a Reply with falsy error field sets it to idle; a Reply
with truthy error text sets it to error; an onerror fault sets it to error;
a successful round trip observes idle, running, idle, and a failing round
trip whose error message is truthy (non-empty) observes idle, running,
error. -/
theorem statusTransitions :
    (∀ (s : DispState) (id : Nat) (f : Callable) (args : List Val),
        s.workerAlive = true → s.status = WorkerStatus.idle →
        (runWorker s id f args).status = WorkerStatus.running) ∧
      (∀ (s : DispState) (id : Nat) (r : ReplyMsg),
          s.workerAlive = true → s.handlerSlot = some id → truthyError r.error = false →
          (hookOnMessage s r).status = WorkerStatus.idle) ∧
      (∀ (s : DispState) (id : Nat) (r : ReplyMsg),
          s.workerAlive = true → s.handlerSlot = some id → truthyError r.error = true →
          (hookOnMessage s r).status = WorkerStatus.error) ∧
      (∀ (s : DispState) (id : Nat),
          s.workerAlive = true → s.handlerSlot = some id →
          (hookOnError s).status = WorkerStatus.error) ∧
      (∀ (f : Callable) (args : List Val) (v : Val) (id : Nat),
          f.fn args = Except.ok v →
          statusTrace f args id
            = [WorkerStatus.idle, WorkerStatus.running, WorkerStatus.idle]) ∧
      (∀ (f : Callable) (args : List Val) (m : String) (id : Nat),
          f.fn args = Except.error m → m ≠ "" →
          statusTrace f args id
            = [WorkerStatus.idle, WorkerStatus.running, WorkerStatus.error]) := by
  refine ⟨?_, ?_, ?_, ?_, ?_, ?_⟩
  · intro s id f args hw _
    simp [runWorker, hw]
  · intro s id r hw hs ht
    simp [hookOnMessage, hw, hs, ht]
  · intro s id r hw hs ht
    simp [hookOnMessage, hw, hs, ht]
  · intro s id hw hs
    simp [hookOnError, hw, hs]
  · intro f args v id h
    simp [statusTrace, roundTrip, useWebWorkerStep, runWorker, initState,
      hookOnMessage, workerFuncOnMessage, mkInvocation, newFunction,
      Callable.toString, h, truthyError]
  · intro f args m id h hm
    have hne : m.isEmpty = false := by
      cases he : m.isEmpty with
      | false => rfl
      | true => exact absurd ((String.isEmpty_iff m).mp he) hm
    simp [statusTrace, roundTrip, useWebWorkerStep, runWorker, initState,
      hookOnMessage, workerFuncOnMessage, mkInvocation, newFunction,
      Callable.toString, h, truthyError, hne]

/-- Witness for C4 (amended): the failing round trip with the boom message
observes idle, running, error. -/
theorem statusTransitions_witness :
    throwBoom.fn [] = Except.error "boom" ∧ ("boom" : String) ≠ "" ∧
      statusTrace throwBoom [] 0
        = [WorkerStatus.idle, WorkerStatus.running, WorkerStatus.error] :=
  ⟨rfl, by decide, statusTransitions.2.2.2.2.2 throwBoom [] "boom" 0 rfl (by decide)⟩

/-- C5: issuing a second runWorker call before the reply to the first
arrives replaces the single handler slot with the second promise id; a
reply then settles exactly one pending result, the one of the second call,
and over any continuation of events (which can never re-dispatch the first,
already consumed, promise id) the first promise never settles. -/
theorem overwriteRace (id1 id2 : Nat) (f1 f2 : Callable) (a1 a2 : List Val)
    (r : ReplyMsg) (evts : List Event)
    (hne : id1 ≠ id2)
    (hfresh : evts.all (fun e => !(dispatches id1 e)) = true) :
    (twoDispatches id1 id2 f1 f2 a1 a2).handlerSlot = some id2 ∧
      (useWebWorkerStep (twoDispatches id1 id2 f1 f2 a1 a2)
          (Event.message r)).settlements.length = 1 ∧
      (useWebWorkerStep (twoDispatches id1 id2 f1 f2 a1 a2)
          (Event.message r)).settlements.all (fun p => p.1 == id2) = true ∧
      (evts.foldl useWebWorkerStep
          (twoDispatches id1 id2 f1 f2 a1 a2)).settlements.all
        (fun p => p.1 != id1) = true := by
  have h2 : twoDispatches id1 id2 f1 f2 a1 a2
      = { status := WorkerStatus.running
          workerAlive := true
          handlerSlot := some id2
          settlements := []
          outbox := [mkInvocation f1 a1, mkInvocation f2 a2] } := by
    simp [twoDispatches, runWorker, initState]
  refine ⟨by rw [h2], ?_, ?_, ?_⟩
  · rw [h2]
    cases ht : truthyError r.error <;>
      simp [useWebWorkerStep, hookOnMessage, ht, settle]
  · rw [h2]
    cases ht : truthyError r.error <;>
      simp [useWebWorkerStep, hookOnMessage, ht, settle]
  · refine foldl_no_settle id1 evts _ ?_ ?_ hfresh
    · rw [h2]
      simpa using fun hh => hne hh.symm
    · rw [h2]
      rfl

/-- Witness for C5: two dispatches with ids 0 and 1, one reply, then a
continuation of a further reply and a kill; only the second promise ever
settles. -/
theorem overwriteRace_witness :
    (0 : Nat) ≠ 1 ∧
      ([Event.message { result := some (Val.num 10), error := none },
          Event.killCall].all (fun e => !(dispatches 0 e)) = true) ∧
      ((twoDispatches 0 1 sumRange sumRange [Val.num 3] [Val.num 5]).handlerSlot
          = some 1 ∧
        (useWebWorkerStep (twoDispatches 0 1 sumRange sumRange [Val.num 3] [Val.num 5])
            (Event.message { result := some (Val.num 10), error := none })).settlements.length
          = 1 ∧
        (useWebWorkerStep (twoDispatches 0 1 sumRange sumRange [Val.num 3] [Val.num 5])
            (Event.message { result := some (Val.num 10), error := none })).settlements.all
          (fun p => p.1 == 1) = true ∧
        ([Event.message { result := some (Val.num 10), error := none },
            Event.killCall].foldl useWebWorkerStep
            (twoDispatches 0 1 sumRange sumRange [Val.num 3] [Val.num 5])).settlements.all
          (fun p => p.1 != 0) = true) :=
  ⟨by decide, by decide,
    overwriteRace 0 1 sumRange sumRange [Val.num 3] [Val.num 5]
      { result := some (Val.num 10), error := none }
      [Event.message { result := some (Val.num 10), error := none }, Event.killCall]
      (by decide) (by decide)⟩

/-- C6: kill on a live worker reads status idle and drops the handle; the
handle stays dropped over any continuation of events, every subsequent
runWorker call there is rejected with Worker not initialized while leaving
status untouched, and any further kill call is a no-op leaving the state
unchanged. -/
theorem killContract (s : DispState) (evts : List Event) (id : Nat) (f : Callable)
    (args : List Val) (h : s.workerAlive = true) :
    (kill s).status = WorkerStatus.idle ∧
      (kill s).workerAlive = false ∧
      (evts.foldl useWebWorkerStep (kill s)).workerAlive = false ∧
      (runWorker (evts.foldl useWebWorkerStep (kill s)) id f args).status
        = (evts.foldl useWebWorkerStep (kill s)).status ∧
      (runWorker (evts.foldl useWebWorkerStep (kill s)) id f args).settlements
        = settle (evts.foldl useWebWorkerStep (kill s)) id
            (Settlement.rejected (JsError.jsError "Worker not initialized")) ∧
      kill (evts.foldl useWebWorkerStep (kill s)) = evts.foldl useWebWorkerStep (kill s) := by
  have hk : (kill s).workerAlive = false := by simp [kill, h]
  have hd : (evts.foldl useWebWorkerStep (kill s)).workerAlive = false :=
    foldl_dead evts (kill s) hk
  refine ⟨by simp [kill, h], hk, hd, ?_, ?_, kill_dead _ hd⟩
  · simp [runWorker, hd]
  · simp [runWorker, hd]

/-- Witness for C6: kill the freshly mounted dispatcher, deliver one stray
reply, then dispatch sumRange; the dispatch is rejected with Worker not
initialized and a second kill changes nothing. -/
theorem killContract_witness :
    initState.workerAlive = true ∧
      ((kill initState).status = WorkerStatus.idle ∧
        (kill initState).workerAlive = false ∧
        ([Event.message { result := some (Val.num 1), error := none }].foldl
            useWebWorkerStep (kill initState)).workerAlive = false ∧
        (runWorker
            ([Event.message { result := some (Val.num 1), error := none }].foldl
              useWebWorkerStep (kill initState)) 0 sumRange [Val.num 5]).status
          = ([Event.message { result := some (Val.num 1), error := none }].foldl
              useWebWorkerStep (kill initState)).status ∧
        (runWorker
            ([Event.message { result := some (Val.num 1), error := none }].foldl
              useWebWorkerStep (kill initState)) 0 sumRange [Val.num 5]).settlements
          = settle
              ([Event.message { result := some (Val.num 1), error := none }].foldl
                useWebWorkerStep (kill initState)) 0
              (Settlement.rejected (JsError.jsError "Worker not initialized")) ∧
        kill
            ([Event.message { result := some (Val.num 1), error := none }].foldl
              useWebWorkerStep (kill initState))
          = [Event.message { result := some (Val.num 1), error := none }].foldl
              useWebWorkerStep (kill initState)) :=
  ⟨rfl,
    killContract initState [Event.message { result := some (Val.num 1), error := none }]
      0 sumRange [Val.num 5] rfl⟩

/-- C7 counterexample: the webWorkerFunctionCreator execution context (cited
by the claim alongside workerFunc) does not send exactly one Reply per
Invocation: when the callable throws, the exception escapes its onmessage
handler, which has no try/catch, and nothing at all is posted. -/
theorem replyProtocol_cex :
    throwBoom.fn [] = Except.error "boom" ∧
      creatorWorkerOnMessage { funcString := Callable.toString throwBoom, args := [] } = [] ∧
      (creatorWorkerOnMessage
          { funcString := Callable.toString throwBoom, args := [] }).length ≠ 1 :=
  ⟨rfl, rfl, by decide⟩

/-- C7 (amended): the workerFunc execution context used by useWebWorker and
generateWebWorker sends exactly one Reply per Invocation, that Reply carries
exactly one of the mutually exclusive result and error fields, and one run
produces exactly one Reply per inbound Invocation and none it was not asked
for; the webWorkerFunctionCreator context instead posts the single untagged
result value on a normal return and posts no Reply at all when the callable
throws. -/
theorem replyProtocol (inv : InvocationMsg) (invs : List InvocationMsg)
    (msg : CreatorInvocationMsg) (v : Val) (m : String) :
    (workerFuncReplies inv).length = 1 ∧
      (((workerFuncOnMessage inv).result.isSome && (workerFuncOnMessage inv).error.isNone)
          || ((workerFuncOnMessage inv).result.isNone
              && (workerFuncOnMessage inv).error.isSome)) = true ∧
      (workerFuncRun invs).length = invs.length ∧
      ((newFunction msg.funcString).fn msg.args = Except.ok v →
        creatorWorkerOnMessage msg = [v]) ∧
      ((newFunction msg.funcString).fn msg.args = Except.error m →
        creatorWorkerOnMessage msg = []) := by
  refine ⟨rfl, ?_, by simp [workerFuncRun], ?_, ?_⟩
  · cases hfn : (newFunction inv.functionString).fn inv.input <;>
      simp [workerFuncOnMessage, hfn]
  · intro h
    simp [creatorWorkerOnMessage, h]
  · intro h
    simp [creatorWorkerOnMessage, h]

/-- Witness for C7 (amended): the sumRange invocation gets exactly one
tagged reply from workerFunc, and the creator context posts exactly the
untagged value 10 for it. -/
theorem replyProtocol_witness :
    (newFunction (Callable.toString sumRange)).fn [Val.num 5] = Except.ok (Val.num 10) ∧
      ((workerFuncReplies (mkInvocation sumRange [Val.num 5])).length = 1 ∧
        (((workerFuncOnMessage (mkInvocation sumRange [Val.num 5])).result.isSome
              && (workerFuncOnMessage (mkInvocation sumRange [Val.num 5])).error.isNone)
            || ((workerFuncOnMessage (mkInvocation sumRange [Val.num 5])).result.isNone
                && (workerFuncOnMessage (mkInvocation sumRange [Val.num 5])).error.isSome))
          = true ∧
        (workerFuncRun [mkInvocation sumRange [Val.num 5]]).length
          = [mkInvocation sumRange [Val.num 5]].length ∧
        ((newFunction (Callable.toString sumRange)).fn [Val.num 5] = Except.ok (Val.num 10) →
          creatorWorkerOnMessage
              { funcString := Callable.toString sumRange, args := [Val.num 5] }
            = [Val.num 10]) ∧
        ((newFunction (Callable.toString sumRange)).fn [Val.num 5] = Except.error "boom" →
          creatorWorkerOnMessage
              { funcString := Callable.toString sumRange, args := [Val.num 5] }
            = [])) :=
  ⟨rfl,
    replyProtocol (mkInvocation sumRange [Val.num 5]) [mkInvocation sumRange [Val.num 5]]
      { funcString := Callable.toString sumRange, args := [Val.num 5] }
      (Val.num 10) "boom"⟩

/-- C8 (modelled from the spec, see gatedStep): under the gated,
value-driven policy, setting the trigger to the falsy value zero from any
prior state, truthy or not, reads status idle, leaves no live Execution
Context, creates no new context, and no Reply is ever produced while the
gate stays closed: any sequence of reply events leaves the state fixed. -/
theorem gatedFalsyTrigger (s : GatedState) (rs : List ReplyMsg) :
    (gatedStep s (GatedEvent.setTrigger 0)).status = WorkerStatus.idle ∧
      (gatedStep s (GatedEvent.setTrigger 0)).contextLive = false ∧
      (gatedStep s (GatedEvent.setTrigger 0)).contextsCreated = s.contextsCreated ∧
      (gatedStep s (GatedEvent.setTrigger 0)).replies = [] ∧
      (rs.map GatedEvent.contextReply).foldl gatedStep
          (gatedStep s (GatedEvent.setTrigger 0))
        = gatedStep s (GatedEvent.setTrigger 0) := by
  refine ⟨rfl, rfl, rfl, rfl, ?_⟩
  exact gatedReplies_fix rs _ rfl

/-- C9: the per-owner dispatch path of useWebWorker and the process-wide
singleton dispatch path of generateWebWorker are behaviourally equivalent:
on every dispatcher state and every event, both step functions produce the
same next state, so rejections, status transitions and settlements agree
and the lifecycle policies differ only in when the worker is created. -/
theorem dispatchPathsEquivalent (s : DispState) (e : Event) :
    useWebWorkerStep s e = generateWebWorkerStep s e := by
  cases e <;> rfl

/-- C10: a callable throwing an error with falsy (empty) message makes the
worker post an envelope whose error field is the empty string; the reply
handler classifies it by truthiness, so the round trip resolves with
undefined and sets status idle instead of rejecting with status error. -/
theorem emptyErrorResolves (f : Callable) (args : List Val) (id : Nat)
    (h : f.fn args = Except.error "") :
    workerFuncOnMessage (mkInvocation f args) = { result := none, error := some "" } ∧
      (roundTrip f args id initState).status = WorkerStatus.idle ∧
      (roundTrip f args id initState).settlements = [(id, Settlement.resolved none)] := by
  have he : ("" : String).isEmpty = true := rfl
  refine ⟨?_, ?_, ?_⟩ <;>
    simp [roundTrip, useWebWorkerStep, runWorker, initState, hookOnMessage,
      workerFuncOnMessage, mkInvocation, newFunction, Callable.toString, h,
      truthyError, settle, he]

/-- Witness for C10: throwEmpty at promise id 1 resolves with undefined and
rests at idle. -/
theorem emptyErrorResolves_witness :
    throwEmpty.fn [] = Except.error "" ∧
      (workerFuncOnMessage (mkInvocation throwEmpty [])
          = { result := none, error := some "" } ∧
        (roundTrip throwEmpty [] 1 initState).status = WorkerStatus.idle ∧
        (roundTrip throwEmpty [] 1 initState).settlements
          = [(1, Settlement.resolved none)]) :=
  ⟨rfl, emptyErrorResolves throwEmpty [] 1 rfl⟩

end ReactWebWorker
